import Mathlib

/-!
Shallow embedding of the SSH session core of the Pardoroid repository
(src-tauri/src/ssh/{types,session,terminal,client}.rs).

Modelling conventions:
- Machine integers of the source (u16, u32, u64) are modelled as Nat; no
  arithmetic overflows in the modelled code paths.
- Timestamps (chrono DateTime) are modelled as Nat, supplied by the caller
  as part of the environment.
- The live transport handle (russh Handle) is opaque to the modelled code:
  it is represented by a Nat token so that distinct connections can be told
  apart; the code never inspects it, only stores and drops it.
- Network and filesystem effects are modelled by explicit outcome
  parameters (ConnectEnv, channel-open outcomes) supplied per call.
- The UUID v4 generator is modelled as an injective fresh-name supply
  driven by a per-registry counter (freshSessionId / freshTerminalId).
- Rust HashMap<String, _> registries are modelled as association lists
  with HashMap semantics: insert replaces any existing binding, remove
  erases the binding, lookup finds the binding.
- Rust async suspension is visible only in receive_output, whose recv can
  suspend; RecvResult.wouldBlock marks the suspending case, while
  RecvResult.noData is the Ok(None) return of a closed, drained channel.
-/

deriving instance DecidableEq for Except

namespace Pardoroid

/-- Handle<SshClientHandler> of russh, opaque connection token. -/
abbrev Handle : Type := Nat

/-- AuthMethod of types.rs. -/
inductive AuthMethod where
  | Password (secret : String)
  | PublicKey (private_key_path : String) (passphrase : Option String)
  | Agent
  deriving DecidableEq

/-- ConnectionStatus of types.rs. -/
inductive ConnectionStatus where
  | Disconnected
  | Connecting
  | Connected
  | Failed (reason : String)
  deriving DecidableEq

/-- SshConfig of types.rs. -/
structure SshConfig where
  host : String
  port : Nat
  username : String
  auth_method : AuthMethod
  timeout : Option Nat
  deriving DecidableEq

/-- SshError of types.rs. -/
inductive SshError where
  | ConnectionFailed (msg : String)
  | AuthenticationFailed (msg : String)
  | CommandFailed (msg : String)
  | TransferFailed (msg : String)
  | SessionNotFound (msg : String)
  | IoError (msg : String)
  | RusshError (msg : String)
  deriving DecidableEq

/-- CommandResult of types.rs. -/
structure CommandResult where
  exit_code : Nat
  stdout : String
  stderr : String
  deriving DecidableEq

/-- SshSessionInfo of types.rs. -/
structure SshSessionInfo where
  id : String
  config : SshConfig
  status : ConnectionStatus
  connected_at : Option Nat
  deriving DecidableEq

/-- SshSession of session.rs. -/
structure SshSession where
  id : String
  config : SshConfig
  status : ConnectionStatus
  connection : Option Handle
  connected_at : Option Nat
  deriving DecidableEq

/-- AuthResult of russh: connect only compares it against Success. -/
inductive AuthResult where
  | Success
  | Failure
  deriving DecidableEq

/-- Environment outcomes consumed by one SshSession::connect call: the
transport-open result, the private-key load result, the authentication
submission result, and the current time used for the connected timestamp. -/
structure ConnectEnv where
  transport : Except String Handle
  keyLoad : Except String Unit
  authSubmit : Except String AuthResult
  now : Nat
  deriving DecidableEq

/-! Association-list registries with HashMap semantics. -/

/-- HashMap::get on a string-keyed registry. -/
def lookupEntry {α : Type} : List (String × α) → String → Option α
  | [], _ => none
  | (k, v) :: rest, key => if k = key then some v else lookupEntry rest key

/-- HashMap::remove (the key is bound at most once in maps built by insertEntry). -/
def eraseEntry {α : Type} : List (String × α) → String → List (String × α)
  | [], _ => []
  | (k, v) :: rest, key =>
      if k = key then eraseEntry rest key else (k, v) :: eraseEntry rest key

/-- HashMap::insert: replaces any existing binding of the key. -/
def insertEntry {α : Type} (l : List (String × α)) (key : String) (v : α) :
    List (String × α) :=
  (key, v) :: eraseEntry l key

/-- In-place mutation of the entry the registry holds for a key (the Rust
code locks the Arc<Mutex<_>> stored in the map and mutates it in place). -/
def updateEntry {α : Type} : List (String × α) → String → α → List (String × α)
  | [], _, _ => []
  | (k, v) :: rest, key, v2 =>
      if k = key then (k, v2) :: rest else (k, v) :: updateEntry rest key v2

/-! SshSession operations (session.rs, impl SshSession). -/

/-- SshSession::new. -/
def SshSession.new (id : String) (config : SshConfig) : SshSession :=
  { id := id
    config := config
    status := ConnectionStatus.Disconnected
    connection := none
    connected_at := none }

/-- Tail of SshSession::connect shared by the Password and PublicKey arms:
the auth-result check at lines 199-201 and the success commit at 204-206. -/
def SshSession.finishAuth (s : SshSession) (conn : Handle) (auth_result : AuthResult)
    (now : Nat) : Except SshError Unit × SshSession :=
  if auth_result ≠ AuthResult.Success then
    (Except.error (SshError.AuthenticationFailed "Authentication failed"), s)
  else
    (Except.ok (),
      { s with
        connection := some conn
        status := ConnectionStatus.Connected
        connected_at := some now })

/-- SshSession::connect. Sets status to Connecting, opens the transport,
authenticates per the configured method, and on full success stores the
handle, sets status Connected and records the timestamp. Every failure
returns early, leaving the session as already mutated at that point. -/
def SshSession.connect (s : SshSession) (env : ConnectEnv) :
    Except SshError Unit × SshSession :=
  let s := { s with status := ConnectionStatus.Connecting }
  match env.transport with
  | Except.error e => (Except.error (SshError.ConnectionFailed e), s)
  | Except.ok conn =>
    match s.config.auth_method with
    | AuthMethod.Password _ =>
      match env.authSubmit with
      | Except.error e => (Except.error (SshError.AuthenticationFailed e), s)
      | Except.ok auth_result => s.finishAuth conn auth_result env.now
    | AuthMethod.PublicKey _ _ =>
      match env.keyLoad with
      | Except.error e => (Except.error (SshError.AuthenticationFailed e), s)
      | Except.ok _ =>
        match env.authSubmit with
        | Except.error e => (Except.error (SshError.AuthenticationFailed e), s)
        | Except.ok auth_result => s.finishAuth conn auth_result env.now
    | AuthMethod.Agent =>
      (Except.error
        (SshError.AuthenticationFailed "SSH Agent authentication not implemented yet"),
        s)

/-- SshSession::disconnect: best-effort close of the taken handle (result
ignored), then status Disconnected and timestamp cleared. Always Ok. -/
def SshSession.disconnect (s : SshSession) : Except SshError Unit × SshSession :=
  (Except.ok (),
    { s with
      connection := none
      status := ConnectionStatus.Disconnected
      connected_at := none })

/-- SshSession::execute_command. chOpen is the outcome of
channel_open_session on the live handle; the command text is unused. -/
def SshSession.execute_command (s : SshSession) (_command : String)
    (chOpen : Except String Unit) : Except SshError CommandResult × SshSession :=
  match s.connection with
  | none => (Except.error (SshError.CommandFailed "Not connected"), s)
  | some _ =>
    match chOpen with
    | Except.error e => (Except.error (SshError.CommandFailed e), s)
    | Except.ok _ =>
      (Except.ok { exit_code := 0, stdout := "Command executed", stderr := "" }, s)

/-- SshSession::get_info. -/
def SshSession.get_info (s : SshSession) : SshSessionInfo :=
  { id := s.id
    config := s.config
    status := s.status
    connected_at := s.connected_at }

/-! SshSessionManager (session.rs, impl SshSessionManager). -/

/-- Uuid::new_v4 for sessions, modelled as an injective fresh-name supply. -/
def freshSessionId (n : Nat) : String :=
  "session-" ++ String.mk (List.replicate n 'i')

/-- SshSessionManager: the registry map plus the state of the modelled
UUID supply (number of identifiers issued so far). -/
structure SshSessionManager where
  sessions : List (String × SshSession)
  nextId : Nat

/-- SshSessionManager::new. -/
def SshSessionManager.new : SshSessionManager :=
  { sessions := [], nextId := 0 }

/-- SshSessionManager::create_session. -/
def SshSessionManager.create_session (m : SshSessionManager) (config : SshConfig) :
    Except SshError String × SshSessionManager :=
  let session_id := freshSessionId m.nextId
  let session := SshSession.new session_id config
  (Except.ok session_id,
    { sessions := insertEntry m.sessions session_id session, nextId := m.nextId + 1 })

/-- SshSessionManager::connect. -/
def SshSessionManager.connect (m : SshSessionManager) (session_id : String)
    (env : ConnectEnv) : Except SshError Unit × SshSessionManager :=
  match lookupEntry m.sessions session_id with
  | none => (Except.error (SshError.SessionNotFound session_id), m)
  | some s =>
    let r := s.connect env
    (r.1, { m with sessions := updateEntry m.sessions session_id r.2 })

/-- SshSessionManager::disconnect. -/
def SshSessionManager.disconnect (m : SshSessionManager) (session_id : String) :
    Except SshError Unit × SshSessionManager :=
  match lookupEntry m.sessions session_id with
  | none => (Except.error (SshError.SessionNotFound session_id), m)
  | some s =>
    let r := s.disconnect
    (r.1, { m with sessions := updateEntry m.sessions session_id r.2 })

/-- SshSessionManager::execute_command. -/
def SshSessionManager.execute_command (m : SshSessionManager) (session_id : String)
    (command : String) (chOpen : Except String Unit) :
    Except SshError CommandResult × SshSessionManager :=
  match lookupEntry m.sessions session_id with
  | none => (Except.error (SshError.SessionNotFound session_id), m)
  | some s =>
    let r := s.execute_command command chOpen
    (r.1, { m with sessions := updateEntry m.sessions session_id r.2 })

/-- SshSessionManager::get_session_info (read-only snapshot). -/
def SshSessionManager.get_session_info (m : SshSessionManager) (session_id : String) :
    Except SshError SshSessionInfo :=
  match lookupEntry m.sessions session_id with
  | none => Except.error (SshError.SessionNotFound session_id)
  | some s => Except.ok s.get_info

/-- SshSessionManager::remove_session: removes the entry if present and
disconnects the removed session, ignoring the disconnect result (the
removed session is no longer reachable from the registry); Ok either way. -/
def SshSessionManager.remove_session (m : SshSessionManager) (session_id : String) :
    Except SshError Unit × SshSessionManager :=
  match lookupEntry m.sessions session_id with
  | none => (Except.ok (), m)
  | some s =>
    let _ := s.disconnect
    (Except.ok (), { m with sessions := eraseEntry m.sessions session_id })

/-! TerminalManager (terminal.rs). -/

/-- TerminalSession of types.rs. -/
structure TerminalSession where
  id : String
  ssh_session_id : String
  created_at : Nat
  is_active : Bool
  deriving DecidableEq

/-- TerminalData of types.rs. -/
structure TerminalData where
  session_id : String
  data : String
  timestamp : Nat
  deriving DecidableEq

/-- State of the tokio unbounded mpsc output channel held by a terminal:
the queued units not yet received, and whether every sender has been
dropped (closing the producer side). -/
structure OutputChannel where
  queue : List TerminalData
  senderClosed : Bool
  deriving DecidableEq

/-- TerminalSessionData of terminal.rs. input_sender is Option of an
opaque sender (the model keeps only its presence). -/
structure TerminalSessionData where
  info : TerminalSession
  connection : Option Handle
  input_sender : Option Unit
  output_receiver : Option OutputChannel
  deriving DecidableEq

/-- Uuid::new_v4 for terminals, modelled as an injective fresh-name supply. -/
def freshTerminalId (n : Nat) : String :=
  "terminal-" ++ String.mk (List.replicate n 'i')

/-- TerminalManager: the registry map plus the modelled UUID supply. -/
structure TerminalManager where
  sessions : List (String × TerminalSessionData)
  nextId : Nat

/-- TerminalManager::new. -/
def TerminalManager.new : TerminalManager :=
  { sessions := [], nextId := 0 }

/-- TerminalManager::create_terminal_session. Creates both channels,
stores the session record, and sends one initial greeting unit on the
output channel through the local output_sender; that local sender is
dropped when the function returns, so the stored channel holds exactly
the greeting with its producer side closed. The send cannot fail because
the receiver was just stored in the registry (a failed send would return
CommandFailed, a branch that is unreachable and therefore not modelled). -/
def TerminalManager.create_terminal_session (tm : TerminalManager)
    (ssh_session_id : String) (now : Nat) : Except SshError String × TerminalManager :=
  let terminal_id := freshTerminalId tm.nextId
  let session_info : TerminalSession :=
    { id := terminal_id
      ssh_session_id := ssh_session_id
      created_at := now
      is_active := true }
  let initial_data : TerminalData :=
    { session_id := terminal_id
      data := "Terminal session " ++ terminal_id ++ " created successfully.\r\n$ "
      timestamp := now }
  let session_data : TerminalSessionData :=
    { info := session_info
      connection := none
      input_sender := some ()
      output_receiver := some { queue := [initial_data], senderClosed := true } }
  (Except.ok terminal_id,
    { sessions := insertEntry tm.sessions terminal_id session_data
      nextId := tm.nextId + 1 })

/-- TerminalManager::send_input: lookup only; the text is discarded. -/
def TerminalManager.send_input (tm : TerminalManager) (terminal_id : String)
    (_input : String) : Except SshError Unit × TerminalManager :=
  match lookupEntry tm.sessions terminal_id with
  | none => (Except.error (SshError.SessionNotFound terminal_id), tm)
  | some _ => (Except.ok (), tm)

/-- Possible outcomes of the recv().await inside receive_output: a unit
was dequeued (Ok(Some)), the channel is drained and closed (Ok(None)), or
the call suspends awaiting a producer that still exists. -/
inductive RecvResult where
  | data (d : TerminalData)
  | noData
  | wouldBlock
  deriving DecidableEq

/-- TerminalManager::receive_output. -/
def TerminalManager.receive_output (tm : TerminalManager) (terminal_id : String) :
    Except SshError RecvResult × TerminalManager :=
  match lookupEntry tm.sessions terminal_id with
  | none => (Except.error (SshError.SessionNotFound terminal_id), tm)
  | some sd =>
    match sd.output_receiver with
    | none => (Except.ok RecvResult.noData, tm)
    | some ch =>
      match ch.queue with
      | [] =>
        if ch.senderClosed then (Except.ok RecvResult.noData, tm)
        else (Except.ok RecvResult.wouldBlock, tm)
      | d :: rest =>
        let sd2 := { sd with output_receiver := some { ch with queue := rest } }
        (Except.ok (RecvResult.data d),
          { tm with sessions := updateEntry tm.sessions terminal_id sd2 })

/-! SshClient facade (client.rs). -/

/-- SshClient of client.rs: composes the two managers. -/
structure SshClient where
  session_manager : SshSessionManager
  terminal_manager : TerminalManager

/-- SshClient::new. -/
def SshClient.new : SshClient :=
  { session_manager := SshSessionManager.new, terminal_manager := TerminalManager.new }

/-- SshClient::create_connection. -/
def SshClient.create_connection (c : SshClient) (config : SshConfig) :
    Except SshError String × SshClient :=
  let r := c.session_manager.create_session config
  (r.1, { c with session_manager := r.2 })

/-- SshClient::get_session_info. -/
def SshClient.get_session_info (c : SshClient) (session_id : String) :
    Except SshError SshSessionInfo :=
  c.session_manager.get_session_info session_id

/-- SshClient::create_terminal_session: validates that the owning SSH
session exists, then delegates to the terminal manager. -/
def SshClient.create_terminal_session (c : SshClient) (ssh_session_id : String)
    (now : Nat) : Except SshError String × SshClient :=
  match c.session_manager.get_session_info ssh_session_id with
  | Except.error e => (Except.error e, c)
  | Except.ok _ =>
    let r := c.terminal_manager.create_terminal_session ssh_session_id now
    (r.1, { c with terminal_manager := r.2 })

/-- SshClient::receive_terminal_output. -/
def SshClient.receive_terminal_output (c : SshClient) (terminal_id : String) :
    Except SshError RecvResult × SshClient :=
  let r := c.terminal_manager.receive_output terminal_id
  (r.1, { c with terminal_manager := r.2 })

/-! Sequential traces of registry operations, for stating invariants over
every sequence of operations on the Session Registry. -/

/-- One Session Registry operation together with its environment outcomes. -/
inductive RegOp where
  | create (config : SshConfig)
  | connect (session_id : String) (env : ConnectEnv)
  | disconnect (session_id : String)
  | execute (session_id : String) (command : String) (chOpen : Except String Unit)
  | remove (session_id : String)

/-- State reached after one registry operation. -/
def SshSessionManager.step (m : SshSessionManager) : RegOp → SshSessionManager
  | RegOp.create config => (m.create_session config).2
  | RegOp.connect session_id env => (m.connect session_id env).2
  | RegOp.disconnect session_id => (m.disconnect session_id).2
  | RegOp.execute session_id command chOpen => (m.execute_command session_id command chOpen).2
  | RegOp.remove session_id => (m.remove_session session_id).2

/-- State reached after a sequence of registry operations. -/
def SshSessionManager.run (m : SshSessionManager) : List RegOp → SshSessionManager
  | [] => m
  | op :: ops => (m.step op).run ops

/-! Registry lemmas. -/

theorem lookupEntry_erase {α : Type} (l : List (String × α)) (k key : String) :
    lookupEntry (eraseEntry l k) key = if k = key then none else lookupEntry l key := by
  induction l with
  | nil => simp only [eraseEntry, lookupEntry]; split <;> rfl
  | cons hd tl ih =>
    obtain ⟨k0, v0⟩ := hd
    simp only [eraseEntry, lookupEntry]
    by_cases h0 : k0 = k
    · subst h0
      rw [if_pos rfl, ih]
      by_cases hk : k0 = key
      · subst hk; simp
      · simp [hk]
    · rw [if_neg h0]
      simp only [lookupEntry]
      by_cases hk : k0 = key
      · subst hk
        rw [if_pos rfl, if_neg (fun h => h0 h.symm), if_pos rfl]
      · rw [if_neg hk, ih, if_neg hk]

theorem lookupEntry_insert {α : Type} (l : List (String × α)) (k key : String) (v : α) :
    lookupEntry (insertEntry l k v) key = if k = key then some v else lookupEntry l key := by
  simp only [insertEntry, lookupEntry, lookupEntry_erase]
  by_cases hk : k = key
  · simp [hk]
  · simp [hk]

theorem lookupEntry_update {α : Type} (l : List (String × α)) (k key : String) (v : α) :
    lookupEntry (updateEntry l k v) key =
      if k = key then (lookupEntry l k).map (fun _ => v) else lookupEntry l key := by
  induction l with
  | nil =>
    simp only [updateEntry, lookupEntry]
    split <;> rfl
  | cons hd tl ih =>
    obtain ⟨k0, v0⟩ := hd
    simp only [updateEntry, lookupEntry]
    split_ifs <;> simp_all [lookupEntry]

/-! The handle-status invariant of the Session Registry (claim about
connection being Some exactly when status is Connected). -/

/-- The invariant: every session stored in the registry holds a live
handle exactly when its status is Connected. -/
def handleStatusInv (m : SshSessionManager) : Prop :=
  ∀ session_id s, lookupEntry m.sessions session_id = some s →
    (s.connection.isSome = true ↔ s.status = ConnectionStatus.Connected)

/-- Side condition under which one operation preserves the invariant: a
connect must not target a session that is already Connected (re-running
the handshake on a Connected session can strand the stale handle). -/
def connectSafe (m : SshSessionManager) : RegOp → Prop
  | RegOp.connect session_id _ =>
      ∀ s, lookupEntry m.sessions session_id = some s →
        s.status ≠ ConnectionStatus.Connected
  | _ => True

/-- The side condition threaded through a whole operation sequence. -/
def safeTrace : SshSessionManager → List RegOp → Prop
  | _, [] => True
  | m, op :: ops => connectSafe m op ∧ safeTrace (m.step op) ops

theorem session_connect_inv (s : SshSession) (env : ConnectEnv)
    (h : s.connection = none) :
    ((s.connect env).2.connection.isSome = true ↔
      (s.connect env).2.status = ConnectionStatus.Connected) := by
  rcases env with ⟨transport, keyLoad, authSubmit, now⟩
  rcases s with ⟨id, config, status, connection, connected_at⟩
  rcases config with ⟨host, port, username, auth_method, timeout⟩
  simp only at h
  subst h
  rcases transport with e | conn <;>
    rcases auth_method with secret | ⟨path, pass⟩ | _ <;>
    rcases keyLoad with e2 | u <;>
    rcases authSubmit with e3 | ar <;>
    (try rcases ar) <;>
    simp [SshSession.connect, SshSession.finishAuth]

theorem session_execute_frame (s : SshSession) (command : String)
    (chOpen : Except String Unit) : (s.execute_command command chOpen).2 = s := by
  unfold SshSession.execute_command
  rcases s.connection with _ | conn
  · rfl
  · rcases chOpen <;> rfl

theorem step_preserves_inv (m : SshSessionManager) (op : RegOp)
    (hinv : handleStatusInv m) (hsafe : connectSafe m op) :
    handleStatusInv (m.step op) := by
  cases op with
  | create config =>
    intro sid s hs
    simp only [SshSessionManager.step, SshSessionManager.create_session] at hs
    rw [lookupEntry_insert] at hs
    by_cases hk : freshSessionId m.nextId = sid
    · rw [if_pos hk] at hs
      cases hs
      simp [SshSession.new]
    · rw [if_neg hk] at hs
      exact hinv sid s hs
  | connect session_id env =>
    intro sid s hs
    simp only [SshSessionManager.step, SshSessionManager.connect] at hs
    rcases hl : lookupEntry m.sessions session_id with _ | s0
    · rw [hl] at hs
      exact hinv sid s hs
    · rw [hl] at hs
      rw [lookupEntry_update] at hs
      by_cases hk : session_id = sid
      · rw [if_pos hk, hl] at hs
        cases hs
        have hnc : s0.status ≠ ConnectionStatus.Connected := hsafe s0 hl
        have hcn : s0.connection = none := by
          rcases hc : s0.connection with _ | v
          · rfl
          · exact absurd ((hinv session_id s0 hl).mp (by rw [hc]; rfl)) hnc
        exact session_connect_inv s0 env hcn
      · rw [if_neg hk] at hs
        exact hinv sid s hs
  | disconnect session_id =>
    intro sid s hs
    simp only [SshSessionManager.step, SshSessionManager.disconnect] at hs
    rcases hl : lookupEntry m.sessions session_id with _ | s0
    · rw [hl] at hs
      exact hinv sid s hs
    · rw [hl] at hs
      rw [lookupEntry_update] at hs
      by_cases hk : session_id = sid
      · rw [if_pos hk, hl] at hs
        cases hs
        simp [SshSession.disconnect]
      · rw [if_neg hk] at hs
        exact hinv sid s hs
  | execute session_id command chOpen =>
    intro sid s hs
    simp only [SshSessionManager.step, SshSessionManager.execute_command] at hs
    rcases hl : lookupEntry m.sessions session_id with _ | s0
    · rw [hl] at hs
      exact hinv sid s hs
    · rw [hl] at hs
      rw [lookupEntry_update] at hs
      by_cases hk : session_id = sid
      · rw [if_pos hk, hl] at hs
        cases hs
        rw [session_execute_frame]
        exact hinv session_id s0 hl
      · rw [if_neg hk] at hs
        exact hinv sid s hs
  | remove session_id =>
    intro sid s hs
    simp only [SshSessionManager.step, SshSessionManager.remove_session] at hs
    rcases hl : lookupEntry m.sessions session_id with _ | s0
    · rw [hl] at hs
      exact hinv sid s hs
    · rw [hl] at hs
      rw [lookupEntry_erase] at hs
      by_cases hk : session_id = sid
      · rw [if_pos hk] at hs
        cases hs
      · rw [if_neg hk] at hs
        exact hinv sid s hs

theorem run_preserves_inv (m : SshSessionManager) (ops : List RegOp)
    (hinv : handleStatusInv m) (hsafe : safeTrace m ops) :
    handleStatusInv (m.run ops) := by
  induction ops generalizing m with
  | nil => exact hinv
  | cons op ops ih =>
    exact ih (m.step op) (step_preserves_inv m op hinv hsafe.1) hsafe.2

/-! Classifiers over the error and status variants. -/

/-- True exactly on the ConnectionFailed and AuthenticationFailed variants. -/
def SshError.isHandshakeFailure : SshError → Bool
  | SshError.ConnectionFailed _ => true
  | SshError.AuthenticationFailed _ => true
  | _ => false

/-- True exactly on the Failed variant of ConnectionStatus. -/
def ConnectionStatus.isFailed : ConnectionStatus → Bool
  | ConnectionStatus.Failed _ => true
  | _ => false

/-! Concrete fixtures used by witnesses and counterexamples. -/

/-- Password configuration of the spec scenario in section 8. -/
def pwConfig : SshConfig :=
  { host := "h", port := 22, username := "u"
    auth_method := AuthMethod.Password "p", timeout := none }

/-- Agent configuration. -/
def agentConfig : SshConfig :=
  { host := "h", port := 22, username := "u"
    auth_method := AuthMethod.Agent, timeout := none }

/-- Environment in which the transport-layer connection fails to open. -/
def transportFailEnv : ConnectEnv :=
  { transport := Except.error "connection refused", keyLoad := Except.ok ()
    authSubmit := Except.ok AuthResult.Success, now := 0 }

/-- Environment in which every handshake step succeeds. -/
def okEnv : ConnectEnv :=
  { transport := Except.ok 7, keyLoad := Except.ok ()
    authSubmit := Except.ok AuthResult.Success, now := 5 }

/-! Session-level failure lemma shared by the connect claims. -/

theorem session_connect_failure (s : SshSession) (env : ConnectEnv) (e : SshError)
    (hfail : (s.connect env).1 = Except.error e) :
    e.isHandshakeFailure = true ∧
    (s.connect env).2.status = ConnectionStatus.Connecting := by
  rcases env with ⟨transport, keyLoad, authSubmit, now⟩
  rcases s with ⟨id, config, status, connection, connected_at⟩
  rcases config with ⟨host, port, username, auth_method, timeout⟩
  rcases transport with e2 | conn <;>
    rcases auth_method with secret | ⟨path, pass⟩ | _ <;>
    rcases keyLoad with e3 | u <;>
    rcases authSubmit with e4 | ar <;>
    (try rcases ar) <;>
    simp_all [SshSession.connect, SshSession.finishAuth, SshError.isHandshakeFailure] <;>
    (try (subst hfail; simp [SshError.isHandshakeFailure]))

/-- C1 (amended): for every session present in the registry, if connect
runs the handshake and any step fails, then connect returns
ConnectionFailed or AuthenticationFailed, and the status observed
afterwards via get_session_info is Connecting — the code sets Connecting
on entry and never assigns the Failed variant. -/
theorem connect_failure_leaves_connecting (m : SshSessionManager) (session_id : String)
    (s : SshSession) (env : ConnectEnv) (e : SshError)
    (hpresent : lookupEntry m.sessions session_id = some s)
    (hfail : (m.connect session_id env).1 = Except.error e) :
    e.isHandshakeFailure = true ∧
    ((m.connect session_id env).2.get_session_info session_id).map
        (fun info => info.status) =
      Except.ok ConnectionStatus.Connecting := by
  have hm : m.connect session_id env =
      ((s.connect env).1,
        { m with sessions := updateEntry m.sessions session_id (s.connect env).2 }) := by
    unfold SshSessionManager.connect
    rw [hpresent]
  rw [hm] at hfail ⊢
  obtain ⟨h1, h2⟩ := session_connect_failure s env e hfail
  refine ⟨h1, ?_⟩
  unfold SshSessionManager.get_session_info
  rw [lookupEntry_update, if_pos rfl, hpresent]
  simp [SshSession.get_info, h2, Except.map]

/-- C1 witness: the scenario of spec section 8 with the transport failure
injected at the connection-open step. -/
theorem connect_failure_leaves_connecting_witness :
    (SshError.ConnectionFailed "connection refused").isHandshakeFailure = true ∧
    (((SshSessionManager.new.create_session pwConfig).2.connect
          (freshSessionId 0) transportFailEnv).2.get_session_info
        (freshSessionId 0)).map (fun info => info.status) =
      Except.ok ConnectionStatus.Connecting :=
  connect_failure_leaves_connecting (SshSessionManager.new.create_session pwConfig).2
    (freshSessionId 0) (SshSession.new (freshSessionId 0) pwConfig) transportFailEnv
    (SshError.ConnectionFailed "connection refused") (by decide) (by decide)

/-- C1 counterexample: after create_session with the spec scenario
configuration and a connect whose transport open fails, connect has
returned ConnectionFailed, yet the status observed via get_session_info
is Connecting, not the Failed variant the claim requires. -/
theorem connect_failure_status_counterexample :
    (((SshSessionManager.new.create_session pwConfig).2.connect
        (freshSessionId 0) transportFailEnv).1 =
      Except.error (SshError.ConnectionFailed "connection refused")) ∧
    (((SshSessionManager.new.create_session pwConfig).2.connect
          (freshSessionId 0) transportFailEnv).2.get_session_info
        (freshSessionId 0)).map (fun info => info.status.isFailed) =
      Except.ok false := by decide

/-- C2 (amended): starting from the empty registry, after every sequence
of registry operations in which connect is never invoked on a session
that is already Connected, every stored session holds a live transport
handle (Some) exactly when its status is Connected; the unrestricted
claim fails because a connect re-invoked on a Connected session that
fails partway leaves the stale handle Some with status Connecting. -/
theorem handle_some_iff_connected (ops : List RegOp)
    (hsafe : safeTrace SshSessionManager.new ops) :
    handleStatusInv (SshSessionManager.new.run ops) := by
  refine run_preserves_inv _ _ ?_ hsafe
  intro session_id s hs
  simp [SshSessionManager.new, lookupEntry] at hs

/-- C2 witness: a create, a failing connect on the created session (its
status is Disconnected, not Connected), and a disconnect. -/
theorem handle_some_iff_connected_witness :
    handleStatusInv (SshSessionManager.new.run
      [RegOp.create pwConfig,
       RegOp.connect (freshSessionId 0) transportFailEnv,
       RegOp.disconnect (freshSessionId 0)]) :=
  handle_some_iff_connected
    [RegOp.create pwConfig,
     RegOp.connect (freshSessionId 0) transportFailEnv,
     RegOp.disconnect (freshSessionId 0)]
    ⟨trivial,
     fun s hs => by
      have h0 : lookupEntry
          (SshSessionManager.new.step (RegOp.create pwConfig)).sessions
          (freshSessionId 0) = some (SshSession.new (freshSessionId 0) pwConfig) := by
        decide
      rw [h0] at hs
      cases hs
      decide,
     trivial, trivial⟩

/-- C2 counterexample: create, a successful connect, then a re-connect on
the now-Connected session whose transport open fails: the stored session
keeps the stale handle (connection is Some) while its status is
Connecting, refuting the if-and-only-if. -/
theorem handle_some_iff_connected_counterexample :
    ((((SshSessionManager.new.create_session pwConfig).2.connect
          (freshSessionId 0) okEnv).2.connect
        (freshSessionId 0) transportFailEnv).1 =
      Except.error (SshError.ConnectionFailed "connection refused")) ∧
    (lookupEntry
        (((SshSessionManager.new.create_session pwConfig).2.connect
              (freshSessionId 0) okEnv).2.connect
            (freshSessionId 0) transportFailEnv).2.sessions
        (freshSessionId 0)).map
      (fun s => (s.connection.isSome, s.status)) =
      some (true, ConnectionStatus.Connecting) := by decide

/-! Prompt-marker vocabulary for the terminal claims. -/

/-- The prompt marker seeded into the greeting output unit. -/
def promptMarker : String := "$ "

/-- The payload holds the prompt marker as a contiguous substring. -/
def containsPromptMarker (s : String) : Prop :=
  ∃ pre post : List Char, s.data = pre ++ promptMarker.data ++ post

theorem greeting_contains_prompt (tid : String) :
    containsPromptMarker ("Terminal session " ++ tid ++ " created successfully.\r\n$ ") := by
  refine ⟨("Terminal session " ++ tid).data ++ (" created successfully.\r\n" : String).data,
    [], ?_⟩
  have h : (" created successfully.\r\n$ " : String).data =
      (" created successfully.\r\n" : String).data ++ promptMarker.data := by decide
  simp [String.data_append, h]
  decide

/-- C3: create_terminal_session on an owning session identifier absent
from the Session Registry fails with SessionNotFound; and on success, the
first receive_output on the returned terminal identifier (with no
intervening send_input) returns a Terminal Data unit whose payload
contains the prompt marker. -/
theorem create_terminal_seeds_prompt (c : SshClient) (ssh_session_id : String) (now : Nat) :
    (lookupEntry c.session_manager.sessions ssh_session_id = none →
      (c.create_terminal_session ssh_session_id now).1 =
        Except.error (SshError.SessionNotFound ssh_session_id)) ∧
    (∀ terminal_id c2,
      c.create_terminal_session ssh_session_id now = (Except.ok terminal_id, c2) →
      ∃ d,
        (c2.receive_terminal_output terminal_id).1 = Except.ok (RecvResult.data d) ∧
        containsPromptMarker d.data) := by
  constructor
  · intro habsent
    unfold SshClient.create_terminal_session SshSessionManager.get_session_info
    rw [habsent]
  · intro terminal_id c2 hcreate
    rcases hl : lookupEntry c.session_manager.sessions ssh_session_id with _ | s0
    · exfalso
      unfold SshClient.create_terminal_session SshSessionManager.get_session_info at hcreate
      rw [hl] at hcreate
      simp at hcreate
    · have hcr : c.create_terminal_session ssh_session_id now =
          (Except.ok (freshTerminalId c.terminal_manager.nextId),
            { c with terminal_manager :=
                (c.terminal_manager.create_terminal_session ssh_session_id now).2 }) := by
        unfold SshClient.create_terminal_session SshSessionManager.get_session_info
        rw [hl]
        rfl
      rw [hcr] at hcreate
      injection hcreate with h1 h2
      injection h1 with h1
      subst h1
      subst h2
      refine ⟨{ session_id := freshTerminalId c.terminal_manager.nextId
                data := "Terminal session " ++ freshTerminalId c.terminal_manager.nextId ++
                  " created successfully.\r\n$ "
                timestamp := now }, ?_, greeting_contains_prompt _⟩
      simp [SshClient.receive_terminal_output, TerminalManager.receive_output,
        TerminalManager.create_terminal_session, lookupEntry_insert]

/-- C3 witness: a client with one created session; terminal creation on
that session succeeds and the first receive returns the seeded greeting. -/
theorem create_terminal_seeds_prompt_witness :
    ∃ d, ((((SshClient.new.create_connection pwConfig).2.create_terminal_session
            (freshSessionId 0) 3).2).receive_terminal_output
          (freshTerminalId 0)).1 = Except.ok (RecvResult.data d) ∧
      containsPromptMarker d.data :=
  (create_terminal_seeds_prompt (SshClient.new.create_connection pwConfig).2
      (freshSessionId 0) 3).2 (freshTerminalId 0)
    ((SshClient.new.create_connection pwConfig).2.create_terminal_session
      (freshSessionId 0) 3).2 rfl

/-- C4: disconnect is idempotent: for every session present in the
registry, two consecutive disconnect calls both succeed, and after each
call the status observed via get_session_info is Disconnected with the
connected timestamp cleared. -/
theorem disconnect_idempotent (m : SshSessionManager) (session_id : String)
    (s : SshSession) (hpresent : lookupEntry m.sessions session_id = some s) :
    (m.disconnect session_id).1 = Except.ok () ∧
    ((m.disconnect session_id).2.get_session_info session_id).map
        (fun info => (info.status, info.connected_at)) =
      Except.ok (ConnectionStatus.Disconnected, none) ∧
    ((m.disconnect session_id).2.disconnect session_id).1 = Except.ok () ∧
    (((m.disconnect session_id).2.disconnect session_id).2.get_session_info
        session_id).map (fun info => (info.status, info.connected_at)) =
      Except.ok (ConnectionStatus.Disconnected, none) := by
  unfold SshSessionManager.disconnect SshSessionManager.get_session_info
  rw [hpresent]
  simp [SshSession.disconnect, lookupEntry_update, hpresent, SshSession.get_info,
    Except.map]

/-- C4 witness: the two disconnect calls on a freshly created session. -/
theorem disconnect_idempotent_witness :
    ((SshSessionManager.new.create_session pwConfig).2.disconnect
        (freshSessionId 0)).1 = Except.ok () ∧
    (((SshSessionManager.new.create_session pwConfig).2.disconnect
          (freshSessionId 0)).2.get_session_info (freshSessionId 0)).map
        (fun info => (info.status, info.connected_at)) =
      Except.ok (ConnectionStatus.Disconnected, none) ∧
    (((SshSessionManager.new.create_session pwConfig).2.disconnect
          (freshSessionId 0)).2.disconnect (freshSessionId 0)).1 = Except.ok () ∧
    ((((SshSessionManager.new.create_session pwConfig).2.disconnect
            (freshSessionId 0)).2.disconnect (freshSessionId 0)).2.get_session_info
        (freshSessionId 0)).map (fun info => (info.status, info.connected_at)) =
      Except.ok (ConnectionStatus.Disconnected, none) :=
  disconnect_idempotent (SshSessionManager.new.create_session pwConfig).2
    (freshSessionId 0) (SshSession.new (freshSessionId 0) pwConfig) (by decide)

/-- C5: for every identifier freshly returned by create_session, before
any connect: get_session_info reports status exactly Disconnected, and
execute_command on it fails with CommandFailed (reason Not connected),
whatever the channel-open outcome would be. -/
theorem create_session_initial_state (m : SshSessionManager) (config : SshConfig)
    (command : String) (chOpen : Except String Unit) :
    ∃ session_id m2,
      m.create_session config = (Except.ok session_id, m2) ∧
      (m2.get_session_info session_id).map (fun info => info.status) =
        Except.ok ConnectionStatus.Disconnected ∧
      (m2.execute_command session_id command chOpen).1 =
        Except.error (SshError.CommandFailed "Not connected") := by
  refine ⟨freshSessionId m.nextId, _, rfl, ?_, ?_⟩
  · unfold SshSessionManager.get_session_info
    simp [lookupEntry_insert, SshSession.new, SshSession.get_info, Except.map]
  · unfold SshSessionManager.execute_command
    simp [lookupEntry_insert, SshSession.new, SshSession.execute_command]

/-- C5 witness: instantiation at the scenario configuration. -/
theorem create_session_initial_state_witness :
    ∃ session_id m2,
      SshSessionManager.new.create_session pwConfig = (Except.ok session_id, m2) ∧
      (m2.get_session_info session_id).map (fun info => info.status) =
        Except.ok ConnectionStatus.Disconnected ∧
      (m2.execute_command session_id "ls" (Except.ok ())).1 =
        Except.error (SshError.CommandFailed "Not connected") :=
  create_session_initial_state SshSessionManager.new pwConfig "ls" (Except.ok ())

/-- C6: remove_session succeeds for every identifier: afterwards the
identifier is absent from the registry, and on an identifier that was
already absent the registry is left untouched (no-op); no disconnection
error is ever surfaced since the session-level disconnect result is
discarded. -/
theorem remove_session_total (m : SshSessionManager) (session_id : String) :
    (m.remove_session session_id).1 = Except.ok () ∧
    lookupEntry (m.remove_session session_id).2.sessions session_id = none ∧
    (lookupEntry m.sessions session_id = none →
      (m.remove_session session_id).2 = m) := by
  unfold SshSessionManager.remove_session
  rcases hl : lookupEntry m.sessions session_id with _ | s0
  · simp [hl]
  · simp [hl, lookupEntry_erase]

/-- C6 witness: removal of an identifier absent from the empty registry
and of a present identifier. -/
theorem remove_session_total_witness :
    ((SshSessionManager.new.remove_session "missing").1 = Except.ok () ∧
      lookupEntry (SshSessionManager.new.remove_session "missing").2.sessions
        "missing" = none ∧
      (lookupEntry SshSessionManager.new.sessions "missing" = none →
        (SshSessionManager.new.remove_session "missing").2 =
          SshSessionManager.new)) ∧
    ((SshSessionManager.new.create_session pwConfig).2.remove_session
        (freshSessionId 0)).1 = Except.ok () ∧
    lookupEntry ((SshSessionManager.new.create_session pwConfig).2.remove_session
        (freshSessionId 0)).2.sessions (freshSessionId 0) = none :=
  ⟨remove_session_total SshSessionManager.new "missing",
    (remove_session_total (SshSessionManager.new.create_session pwConfig).2
        (freshSessionId 0)).1,
    (remove_session_total (SshSessionManager.new.create_session pwConfig).2
        (freshSessionId 0)).2.1⟩

theorem freshSessionId_inj (a b : Nat) (h : freshSessionId a = freshSessionId b) :
    a = b := by
  unfold freshSessionId at h
  have h2 := congrArg String.data h
  simp only [String.data_append] at h2
  have h3 := List.append_cancel_left h2
  have h4 := congrArg List.length h3
  simpa using h4

/-- C7: create_session never fails: it returns the next identifier of
the modelled UUID supply, which differs from every previously issued
identifier, and stores a new session whose status is Disconnected. -/
theorem create_session_fresh (m : SshSessionManager) (config : SshConfig) :
    ∃ session_id m2,
      m.create_session config = (Except.ok session_id, m2) ∧
      (∀ i, i < m.nextId → session_id ≠ freshSessionId i) ∧
      lookupEntry m2.sessions session_id =
        some (SshSession.new session_id config) ∧
      (SshSession.new session_id config).status = ConnectionStatus.Disconnected := by
  refine ⟨freshSessionId m.nextId, _, rfl, ?_, ?_, rfl⟩
  · intro i hi heq
    have := freshSessionId_inj _ _ heq
    omega
  · simp [lookupEntry_insert]

/-- C7 witness: instantiation on a registry that has already issued one
identifier. -/
theorem create_session_fresh_witness :
    ∃ session_id m2,
      (SshSessionManager.new.create_session pwConfig).2.create_session agentConfig =
        (Except.ok session_id, m2) ∧
      (∀ i, i < (SshSessionManager.new.create_session pwConfig).2.nextId →
        session_id ≠ freshSessionId i) ∧
      lookupEntry m2.sessions session_id =
        some (SshSession.new session_id agentConfig) ∧
      (SshSession.new session_id agentConfig).status =
        ConnectionStatus.Disconnected :=
  create_session_fresh (SshSessionManager.new.create_session pwConfig).2 agentConfig

/-- C8: on a session whose configuration selects Agent authentication,
once the transport opens successfully connect fails with
AuthenticationFailed stating agent authentication is not implemented,
mutates only the status (to Connecting), and its outcome is independent
of the key-load and authentication-submission outcomes, so no
authentication submission is attempted. -/
theorem agent_auth_not_implemented (s : SshSession) (env : ConnectEnv) (conn : Handle)
    (hagent : s.config.auth_method = AuthMethod.Agent)
    (htransport : env.transport = Except.ok conn) :
    (s.connect env).1 =
      Except.error
        (SshError.AuthenticationFailed "SSH Agent authentication not implemented yet") ∧
    (s.connect env).2 = { s with status := ConnectionStatus.Connecting } ∧
    (∀ keyLoad2 authSubmit2 now2,
      s.connect { transport := env.transport, keyLoad := keyLoad2
                  authSubmit := authSubmit2, now := now2 } = s.connect env) := by
  unfold SshSession.connect
  rw [htransport]
  simp [hagent]

/-- C8 witness: an Agent-configured session connected through the
all-success environment. -/
theorem agent_auth_not_implemented_witness :
    ((SshSession.new "a" agentConfig).connect okEnv).1 =
      Except.error
        (SshError.AuthenticationFailed "SSH Agent authentication not implemented yet") :=
  (agent_auth_not_implemented (SshSession.new "a" agentConfig) okEnv 7 rfl rfl).1

/-- C9: when create_terminal_session returns, the output channel of the
new terminal already has its producer side closed and holds exactly the
one seeded greeting unit: the first receive_output dequeues it, and any
receive_output after the first returns no data (Ok(None)) without
suspending, the manager state being left unchanged by those later calls. -/
theorem terminal_output_closed_after_create (tm : TerminalManager)
    (ssh_session_id : String) (now : Nat) :
    ∃ terminal_id tm2,
      tm.create_terminal_session ssh_session_id now = (Except.ok terminal_id, tm2) ∧
      (lookupEntry tm2.sessions terminal_id).map
          (fun sd => sd.output_receiver.map
            (fun ch => (ch.senderClosed, ch.queue.length))) =
        some (some (true, 1)) ∧
      ∃ d,
        (tm2.receive_output terminal_id).1 = Except.ok (RecvResult.data d) ∧
        ((tm2.receive_output terminal_id).2.receive_output terminal_id).1 =
          Except.ok RecvResult.noData ∧
        ((tm2.receive_output terminal_id).2.receive_output terminal_id).2 =
          (tm2.receive_output terminal_id).2 := by
  refine ⟨freshTerminalId tm.nextId, _, rfl, ?_, ?_⟩
  · simp [TerminalManager.create_terminal_session, lookupEntry_insert]
  · refine ⟨{ session_id := freshTerminalId tm.nextId
              data := "Terminal session " ++ freshTerminalId tm.nextId ++
                " created successfully.\r\n$ "
              timestamp := now }, ?_, ?_, ?_⟩ <;>
      simp [TerminalManager.create_terminal_session, TerminalManager.receive_output,
        lookupEntry_insert, lookupEntry_update]

/-- C9 witness: instantiation on the empty terminal manager. -/
theorem terminal_output_closed_after_create_witness :
    ∃ terminal_id tm2,
      TerminalManager.new.create_terminal_session (freshSessionId 0) 4 =
        (Except.ok terminal_id, tm2) ∧
      (lookupEntry tm2.sessions terminal_id).map
          (fun sd => sd.output_receiver.map
            (fun ch => (ch.senderClosed, ch.queue.length))) =
        some (some (true, 1)) ∧
      ∃ d,
        (tm2.receive_output terminal_id).1 = Except.ok (RecvResult.data d) ∧
        ((tm2.receive_output terminal_id).2.receive_output terminal_id).1 =
          Except.ok RecvResult.noData ∧
        ((tm2.receive_output terminal_id).2.receive_output terminal_id).2 =
          (tm2.receive_output terminal_id).2 :=
  terminal_output_closed_after_create TerminalManager.new (freshSessionId 0) 4

/-- C10: on a session holding a live handle, when the remote execution
channel opens successfully, execute_command returns exit code 0, stdout
"Command executed" and empty stderr whatever the command text, and
returns the session record entirely unchanged (status, configuration,
handle and connected timestamp included). -/
theorem execute_command_fixed_result (s : SshSession) (command : String)
    (conn : Handle) (hconn : s.connection = some conn) :
    s.execute_command command (Except.ok ()) =
      (Except.ok { exit_code := 0, stdout := "Command executed", stderr := "" }, s) := by
  unfold SshSession.execute_command
  rw [hconn]

/-- Session produced by a fully successful connect after creation. -/
def connectedSession : SshSession := ((SshSession.new "a" pwConfig).connect okEnv).2

/-- C10 witness: a connected session executing an arbitrary command. -/
theorem execute_command_fixed_result_witness :
    connectedSession.execute_command "echo hi" (Except.ok ()) =
      (Except.ok { exit_code := 0, stdout := "Command executed", stderr := "" },
        connectedSession) :=
  execute_command_fixed_result connectedSession "echo hi" 7 rfl

end Pardoroid
